import Mathlib

/-
Verification of the chart configuration resolver in
src/components/ui/chart.tsx.

The file shallowly embeds the runtime values the component manipulates:
JavaScript values are modelled by the inductive `JSValue` (numbers are
modelled as integers, which covers every numeric literal the claims
exercise), JavaScript objects are association lists of own properties
(prototype-chain properties are outside the model), and the `ChartConfig`
object is an association list from string keys to `ConfigEntry` records.
-/

namespace ChartSpec

/-- Model of a JavaScript runtime value as seen by the resolver.
Objects are finite association lists of own properties; `vNum` models the
numeric values the component stringifies (integral values). -/
inductive JSValue where
  | vUndefined
  | vNull
  | vBool (b : Bool)
  | vNum (n : Int)
  | vStr (s : String)
  | vObj (fields : List (String × JSValue))
deriving Repr

/-- Own-property lookup on a JavaScript object's field list: the model of
both `obj[k]` (when it yields a present property) and the `k in obj` test
(`isSome` of the result). -/
def lookupField (fields : List (String × JSValue)) (k : String) : Option JSValue :=
  match fields.find? (fun kv => kv.1 == k) with
  | some kv => some kv.2
  | none => none

/-- The source guard `typeof payload === "object" && payload !== null`:
true exactly on (non-null) objects. -/
def isObjV : JSValue → Bool
  | .vObj _ => true
  | _ => false

/-- The source test `typeof v === "string" || typeof v === "number"`. -/
def isStrOrNum : JSValue → Bool
  | .vStr _ => true
  | .vNum _ => true
  | _ => false

/-- Model of JavaScript `String(v)`. Only the string and number cases are
reachable in the resolver (they sit behind an `isStrOrNum` test). -/
def jsString : JSValue → String
  | .vStr s => s
  | .vNum n => toString n
  | .vNull => "null"
  | .vUndefined => "undefined"
  | .vBool b => if b then "true" else "false"
  | .vObj _ => "[object Object]"

/-- The combined test-and-coerce step of the source:
`k in obj && (typeof obj[k] === "string" || typeof obj[k] === "number")`
followed by `String(obj[k])`. Returns the stringified value when the
property is present with a string or number value, `none` otherwise. -/
def coerceKey (v : Option JSValue) : Option String :=
  match v with
  | some w => if isStrOrNum w then some (jsString w) else none
  | none => none

/-- Per-theme color record, the model of
`Record<keyof typeof THEMES, string>` with `THEMES = \x7b light, dark \x7d`. -/
structure ThemeColors where
  light : String
  dark : String
deriving Repr, DecidableEq

/-- One entry of `ChartConfig`: optional label and icon plus the optional
`color` / `theme` fields of the union type. The label is modelled as an
opaque optional string and the icon as a presence flag; neither field
takes part in any lookup. -/
structure ConfigEntry where
  label : Option String := none
  icon : Bool := false
  color : Option String := none
  theme : Option ThemeColors := none
deriving Repr, DecidableEq

/-- The `ChartConfig` object: an association list of own properties from
string keys to entries. -/
abbrev ChartConfig := List (String × ConfigEntry)

/-- Property lookup on the config object, the model of `config[k]`
(and `k in config` via `isSome`). -/
def configLookup (config : ChartConfig) (k : String) : Option ConfigEntry :=
  match config.find? (fun kv => kv.1 == k) with
  | some kv => some kv.2
  | none => none

/-- The source local `payloadPayload`: the nested `payload` property when
it is a (non-null) object, `undefined` otherwise. -/
def payloadPayloadOf (fields : List (String × JSValue)) : Option (List (String × JSValue)) :=
  match lookupField fields "payload" with
  | some (.vObj pf) => some pf
  | _ => none

/-- The source local `configLabelKey`: the direct-property tier, then the
nested-payload tier, then the original key. -/
def effectiveKeyOf (fields : List (String × JSValue)) (key : String) : String :=
  match coerceKey (lookupField fields key) with
  | some s => s
  | none =>
    match payloadPayloadOf fields with
    | some pf =>
      match coerceKey (lookupField pf key) with
      | some s => s
      | none => key
    | none => key

/-- Embedding of `getPayloadConfigFromPayload` from
src/components/ui/chart.tsx: non-objects are rejected by the
`typeof` guard, then the effective key is looked up in the config with a
fallback to the original key. -/
def getPayloadConfigFromPayload (config : ChartConfig) (payload : JSValue) (key : String) :
    Option ConfigEntry :=
  match payload with
  | .vObj fields =>
    let configLabelKey := effectiveKeyOf fields key
    match configLookup config configLabelKey with
    | some e => some e
    | none => configLookup config key
  | _ => none

/-- JavaScript truthiness of an optional string: `undefined` and the
empty string are falsy, every other string is truthy. -/
def jsTruthyStr : Option String → Bool
  | some s => s != ""
  | none => false

/-- JavaScript `a || b` restricted to optional strings: `b` when `a` is
falsy, `a` otherwise. -/
def jsOrStr (a b : Option String) : Option String :=
  if jsTruthyStr a then a else b

/-- The theme names of the `THEMES` constant, in source order. -/
def themeNames : List String := ["light", "dark"]

/-- Model of `itemConfig.theme?.[theme]` for a present theme record:
the per-theme color for the two declared theme names. -/
def themeColor (tc : ThemeColors) (t : String) : Option String :=
  if t = "light" then some tc.light
  else if t = "dark" then some tc.dark
  else none

/-- The `ChartStyle` filter predicate `itemConfig.theme || itemConfig.color`
(JavaScript truthiness: a present theme record is truthy, a color string is
truthy when non-empty). -/
def hasColorOrThemeJS (e : ConfigEntry) : Bool :=
  e.theme.isSome || jsTruthyStr e.color

/-- The source local `colorConfig`: config entries whose value passes the
truthiness filter. -/
def colorConfigOf (config : ChartConfig) : ChartConfig :=
  config.filter (fun kv => hasColorOrThemeJS kv.2)

/-- `ChartStyle` returns `null` (renders no style element) exactly when
`colorConfig` is empty. -/
def chartStyleIsNull (config : ChartConfig) : Bool :=
  (colorConfigOf config).isEmpty

/-- The color chosen for one CSS custom property line:
`itemConfig.theme?.[theme] || itemConfig.color`, kept only when truthy
(the source's `color ? line : null` followed by `.filter(Boolean)`). -/
def cssLineColor (e : ConfigEntry) (t : String) : Option String :=
  let color := jsOrStr (e.theme.bind (fun tc => themeColor tc t)) e.color
  if jsTruthyStr color then color else none

/-- The CSS custom properties `ChartStyle` emits, as (theme, key, color)
triples: for each theme block, one `--color-KEY: COLOR` line per
`colorConfig` entry whose chosen color is truthy. -/
def chartStyleVars (config : ChartConfig) : List (String × String × String) :=
  themeNames.flatMap (fun t =>
    (colorConfigOf config).filterMap (fun kv =>
      (cssLineColor kv.2 t).map (fun c => (t, kv.1, c))))

/-- The union type of a `ChartConfig` entry, as a predicate on the model:
the entry inhabits `\x7b color?: string; theme?: never \x7d` (no theme) or
`\x7b color?: never; theme: Record<...> \x7d` (a theme and no color). -/
def chartEntryWellTyped (e : ConfigEntry) : Bool :=
  e.theme.isNone || (e.color.isNone && e.theme.isSome)

/-- Modelled from the claim: exactly one of the `color` / `theme` fields
is set. -/
def exactlyOneColorTheme (e : ConfigEntry) : Bool :=
  (e.color.isSome && e.theme.isNone) || (e.color.isNone && e.theme.isSome)

/-- The chart context value provided by `ChartContainer`. -/
structure ChartContextProps where
  config : ChartConfig

/-- Embedding of the `useChart` hook: its input is the current value of
`ChartContext` (`none` outside every `ChartContainer`), and it throws
when that value is absent. -/
def useChart : Option ChartContextProps → Except String ChartContextProps
  | none => .error "useChart must be used within a <ChartContainer />"
  | some ctx => .ok ctx

/-- Exception-aware property access `v[k]`: JavaScript throws a TypeError
when the base is `null` or `undefined`, yields `undefined` for a missing
property of an object, and boxes other primitives (never throwing). -/
def propAccessE (v : JSValue) (k : String) : Except String JSValue :=
  match v with
  | .vObj fields => .ok ((lookupField fields k).getD .vUndefined)
  | .vNull => .error ("TypeError: cannot read properties of null (reading " ++ k ++ ")")
  | .vUndefined => .error ("TypeError: cannot read properties of undefined (reading " ++ k ++ ")")
  | _ => .ok .vUndefined

/-- Exception-aware `k in v`: JavaScript throws a TypeError when the
right operand is not an object. -/
def inOpE (k : String) (v : JSValue) : Except String Bool :=
  match v with
  | .vObj fields => .ok (lookupField fields k).isSome
  | _ => .error "TypeError: cannot use in operator on a non-object"

/-- The `configLabelKey` computation of the source with every property
access and `in` test routed through the exception-aware operators, in
source order: nested `payload` probe, direct-property test, nested test. -/
def effectiveKeyE (fields : List (String × JSValue)) (key : String) : Except String String := do
  let rawNested ← propAccessE (.vObj fields) "payload"
  let keyIn ← inOpE key (.vObj fields)
  let directVal ← propAccessE (.vObj fields) key
  if keyIn && isStrOrNum directVal then
    pure (jsString directVal)
  else
    match rawNested with
    | .vObj pf => do
      let kin ← inOpE key (.vObj pf)
      let v ← propAccessE (.vObj pf) key
      if kin && isStrOrNum v then pure (jsString v) else pure key
    | _ => pure key

/-- Exception-aware embedding of `getPayloadConfigFromPayload`: identical
control flow, but every JavaScript operation that can throw is explicit,
so that the absence of errors is a theorem rather than a modelling
assumption. -/
def getPayloadConfigFromPayloadE (config : ChartConfig) (payload : JSValue) (key : String) :
    Except String (Option ConfigEntry) :=
  match payload with
  | .vObj fields =>
    match effectiveKeyE fields key with
    | .error e => .error e
    | .ok configLabelKey =>
      .ok (match configLookup config configLabelKey with
           | some e => some e
           | none => configLookup config key)
  | _ => .ok none

/-- Modelled from the spec: the payload item has a nested payload object. -/
def specNestedPayload (item : List (String × JSValue)) : Option (List (String × JSValue)) :=
  match lookupField item "payload" with
  | some (.vObj nested) => some nested
  | _ => none

/-- Modelled from the spec: if the key exists directly on the payload item
as a string or number, its stringified value is the effective lookup key;
else, if the nested payload contains the key as a string or number, that
stringified value; else the original key. -/
def specEffectiveKey (item : List (String × JSValue)) (key : String) : String :=
  (Option.orElse (coerceKey (lookupField item key)) (fun _ =>
    (specNestedPayload item).bind (fun nested => coerceKey (lookupField nested key)))).getD key

/-- Modelled from the spec: look the effective key up in the config, fall
back to the original key, and return nothing when neither succeeds. -/
def resolveSpec (config : ChartConfig) (item : List (String × JSValue)) (key : String) :
    Option ConfigEntry :=
  Option.orElse (configLookup config (specEffectiveKey item key)) (fun _ =>
    configLookup config key)

/-- Resolution with the nested-payload tier removed: the effective key
comes from the direct property alone, with the usual config fallback. -/
def resolveNoNested (config : ChartConfig) (fields : List (String × JSValue)) (key : String) :
    Option ConfigEntry :=
  let k := (coerceKey (lookupField fields key)).getD key
  match configLookup config k with
  | some e => some e
  | none => configLookup config key

/-- Modelled from the amended claim: a custom-property line uses the
theme-specific color when it is a non-empty string, otherwise the direct
color, and is emitted only when the chosen color is a non-empty string. -/
def amendedVarColor (e : ConfigEntry) (t : String) : Option String :=
  let chosen : Option String :=
    match e.theme with
    | some tc =>
      match themeColor tc t with
      | some s => if s = "" then e.color else some s
      | none => e.color
    | none => e.color
  match chosen with
  | some s => if s = "" then none else some s
  | none => none

/-- A concrete config entry used by the concrete instances below. -/
def entryA : ConfigEntry := { label := some "A" }

/-- A second concrete config entry, distinct from `entryA`. -/
def entryB : ConfigEntry := { label := some "B" }

/-- A config entry with neither a color nor a theme. -/
def entryNeither : ConfigEntry := {}

/-- A config whose only entry carries the empty string as its color. -/
def cfgEmptyColor : ChartConfig := [("a", { color := some "" })]

/- ------------------------------------------------------------------ -/
/- Theorems                                                           -/
/- ------------------------------------------------------------------ -/

/-- The exception-aware key computation never throws and agrees with the
pure `configLabelKey` computation. -/
theorem effectiveKeyE_ok (fields : List (String × JSValue)) (key : String) :
    effectiveKeyE fields key = Except.ok (effectiveKeyOf fields key) := by
  simp only [effectiveKeyE, effectiveKeyOf, payloadPayloadOf, propAccessE, inOpE,
    bind, Except.bind, pure, Except.pure]
  cases hd : lookupField fields key with
  | none =>
    cases hp : lookupField fields "payload" with
    | none => simp [coerceKey]
    | some u =>
      cases u <;> simp [coerceKey] <;>
        (rename_i pf; cases hn : lookupField pf key) <;> simp [coerceKey] <;>
          (rename_i x; cases x <;> simp [isStrOrNum, jsString])
  | some w =>
    cases w <;>
      simp only [Option.isSome_some, Option.getD_some, isStrOrNum, Bool.true_and,
        Bool.false_and, Bool.and_false, Bool.and_true, if_true, if_false, coerceKey,
        Bool.true_eq_false, reduceIte] <;>
      first
        | rfl
        | (cases hp : lookupField fields "payload" with
           | none => simp [coerceKey]
           | some u =>
             cases u <;> simp [coerceKey] <;>
               (rename_i pf; cases hn : lookupField pf key) <;> simp [coerceKey] <;>
                 (rename_i x; cases x <;> simp [isStrOrNum, jsString]))

/-- The spec-worded effective key agrees with the source's
`configLabelKey` computation. -/
theorem specEffectiveKey_eq (item : List (String × JSValue)) (key : String) :
    specEffectiveKey item key = effectiveKeyOf item key := by
  unfold specEffectiveKey effectiveKeyOf specNestedPayload payloadPayloadOf
  cases coerceKey (lookupField item key) with
  | some s => simp [Option.orElse]
  | none =>
    cases lookupField item "payload" with
    | none => simp [Option.orElse]
    | some u =>
      cases u <;> simp [Option.orElse] <;>
        (rename_i pf; cases coerceKey (lookupField pf key) <;> simp)

/-- The exception-aware resolver never throws: it returns exactly the pure
resolver's result wrapped in `ok`. -/
theorem getPayloadConfigE_ok (config : ChartConfig) (p : JSValue) (key : String) :
    getPayloadConfigFromPayloadE config p key =
      Except.ok (getPayloadConfigFromPayload config p key) := by
  cases p <;> simp only [getPayloadConfigFromPayloadE, getPayloadConfigFromPayload]
  rename_i fields
  rw [effectiveKeyE_ok]

/-- C1: for every config, every payload item that is a non-null object and
every key, the resolver equals the spec's algorithm: stringified direct
field, else stringified nested-payload field, else the original key, then
config lookup of the effective key with fallback to the original key,
else nothing. -/
theorem getPayloadConfigFromPayload_refines_spec (config : ChartConfig)
    (item : List (String × JSValue)) (key : String) :
    getPayloadConfigFromPayload config (.vObj item) key = resolveSpec config item key := by
  simp only [getPayloadConfigFromPayload, resolveSpec]
  rw [specEffectiveKey_eq]
  cases h : configLookup config (effectiveKeyOf item key) <;> simp [h, Option.orElse]

/-- C2: when the effective key and the literal key both have config
entries, the resolver returns the entry of the effective key. -/
theorem coerced_key_preferred_over_literal (config : ChartConfig)
    (fields : List (String × JSValue)) (key : String) (e1 e2 : ConfigEntry)
    (h1 : configLookup config (effectiveKeyOf fields key) = some e1)
    (h2 : configLookup config key = some e2) :
    getPayloadConfigFromPayload config (.vObj fields) key = some e1 := by
  simp only [getPayloadConfigFromPayload]
  rw [h1]

/-- C2 witness: with `\x7b foo: "bar" \x7d` and a config holding both "bar"
and "foo", the "bar" entry wins. -/
theorem coerced_key_preferred_over_literal_witness :
    getPayloadConfigFromPayload [("bar", entryA), ("foo", entryB)]
      (.vObj [("foo", .vStr "bar")]) "foo" = some entryA :=
  coerced_key_preferred_over_literal [("bar", entryA), ("foo", entryB)]
    [("foo", .vStr "bar")] "foo" entryA entryB (by decide) (by decide)

/-- C3: a payload item that is not a non-null object resolves to nothing,
whatever the config holds at the key. -/
theorem non_object_payload_returns_none (config : ChartConfig) (key : String)
    (p : JSValue) (h : isObjV p = false) :
    getPayloadConfigFromPayload config p key = none := by
  cases p <;> first | rfl | simp [isObjV] at h

/-- C3 witness: on a null payload item the resolver returns nothing even
though the key has a config entry. -/
theorem non_object_payload_returns_none_witness :
    getPayloadConfigFromPayload [("foo", entryA)] .vNull "foo" = none ∧
    configLookup [("foo", entryA)] "foo" = some entryA :=
  ⟨non_object_payload_returns_none [("foo", entryA)] "foo" .vNull rfl, rfl⟩

/-- C5: the resolver is total and error-free: with every throwing
JavaScript operation modelled explicitly, it returns `ok` of the pure
result on every input, and every miss is the `none` result. -/
theorem getPayloadConfigFromPayloadE_never_errors (config : ChartConfig)
    (p : JSValue) (key : String) :
    getPayloadConfigFromPayloadE config p key =
      Except.ok (getPayloadConfigFromPayload config p key) :=
  getPayloadConfigE_ok config p key

/-- C6: a direct numeric field is stringified before the config lookup. -/
theorem numeric_field_coerced_to_string (config : ChartConfig)
    (fields : List (String × JSValue)) (key : String) (n : Int) (e : ConfigEntry)
    (h1 : lookupField fields key = some (.vNum n))
    (h2 : configLookup config (toString n) = some e) :
    getPayloadConfigFromPayload config (.vObj fields) key = some e := by
  simp [getPayloadConfigFromPayload, effectiveKeyOf, coerceKey, isStrOrNum, jsString, h1, h2]

/-- C6 witness: `resolve(config, \x7b foo: 42 \x7d, "foo")` with config entry
"42" returns that entry. -/
theorem numeric_field_coerced_to_string_witness :
    getPayloadConfigFromPayload [("42", entryA)] (.vObj [("foo", .vNum 42)]) "foo"
      = some entryA :=
  numeric_field_coerced_to_string [("42", entryA)] [("foo", .vNum 42)] "foo" 42 entryA
    rfl rfl

/-- C9: when the `payload` field is present but not a non-null object, the
nested tier is skipped and resolution uses only the direct field or the
literal key. -/
theorem non_object_nested_payload_skipped (config : ChartConfig)
    (fields : List (String × JSValue)) (key : String) (v : JSValue)
    (hv : lookupField fields "payload" = some v) (hno : isObjV v = false) :
    getPayloadConfigFromPayload config (.vObj fields) key =
      resolveNoNested config fields key := by
  have hpp : payloadPayloadOf fields = none := by
    unfold payloadPayloadOf
    rw [hv]
    cases v <;> simp_all [isObjV]
  simp only [getPayloadConfigFromPayload, resolveNoNested, effectiveKeyOf, hpp]
  cases h : coerceKey (lookupField fields key) <;> simp [h]

/-- C9 witness: with a numeric `payload` field the item resolves through
the direct tier exactly as `resolveNoNested` does. -/
theorem non_object_nested_payload_skipped_witness :
    getPayloadConfigFromPayload [("bar", entryA)]
        (.vObj [("payload", .vNum 3), ("foo", .vStr "bar")]) "foo" =
      resolveNoNested [("bar", entryA)] [("payload", .vNum 3), ("foo", .vStr "bar")] "foo" :=
  non_object_nested_payload_skipped [("bar", entryA)]
    [("payload", .vNum 3), ("foo", .vStr "bar")] "foo" (.vNum 3) rfl rfl

/-- C7: `useChart` outside a `ChartContainer` (no context value) throws
its precondition error instead of returning, it returns the context when
one is present, and the resolver itself — the only other operation —
never errors. -/
theorem useChart_requires_context :
    useChart none = .error "useChart must be used within a <ChartContainer />" ∧
    (∀ ctx : ChartContextProps, useChart (some ctx) = .ok ctx) ∧
    (∀ (config : ChartConfig) (p : JSValue) (key : String),
      getPayloadConfigFromPayloadE config p key =
        Except.ok (getPayloadConfigFromPayload config p key)) :=
  ⟨rfl, fun _ => rfl, fun config p key => getPayloadConfigE_ok config p key⟩

/-- C8: the resolver is deterministic — equal configs, payload items and
keys give equal results — and, with effects modelled explicitly, an
invocation performs no effect beyond returning its value. -/
theorem getPayloadConfigFromPayload_deterministic (c1 c2 : ChartConfig)
    (p1 p2 : JSValue) (k1 k2 : String)
    (hc : c1 = c2) (hp : p1 = p2) (hk : k1 = k2) :
    getPayloadConfigFromPayload c1 p1 k1 = getPayloadConfigFromPayload c2 p2 k2 ∧
    getPayloadConfigFromPayloadE c1 p1 k1 =
      Except.ok (getPayloadConfigFromPayload c1 p1 k1) := by
  subst hc hp hk
  exact ⟨rfl, getPayloadConfigE_ok c1 p1 k1⟩

/-- C8 witness: the determinism theorem applied at one concrete
invocation. -/
theorem getPayloadConfigFromPayload_deterministic_witness :
    getPayloadConfigFromPayload [("foo", entryA)] (.vObj [("foo", .vNum 1)]) "foo" =
      getPayloadConfigFromPayload [("foo", entryA)] (.vObj [("foo", .vNum 1)]) "foo" ∧
    getPayloadConfigFromPayloadE [("foo", entryA)] (.vObj [("foo", .vNum 1)]) "foo" =
      Except.ok (getPayloadConfigFromPayload [("foo", entryA)] (.vObj [("foo", .vNum 1)]) "foo") :=
  getPayloadConfigFromPayload_deterministic [("foo", entryA)] [("foo", entryA)]
    (.vObj [("foo", .vNum 1)]) (.vObj [("foo", .vNum 1)]) "foo" "foo" rfl rfl rfl

/-- C4 counterexample: the entry with neither a color nor a theme is
accepted by the union type, so being well typed is not the same as having
exactly one of the two fields. -/
theorem entry_with_neither_accepted :
    ¬ (chartEntryWellTyped entryNeither = true ↔
       exactlyOneColorTheme entryNeither = true) := by
  decide

/-- C4 amended: the union type enforces at most one of `color` / `theme`:
an entry is well typed exactly when it does not set both; an entry with
neither is accepted. -/
theorem chartEntryWellTyped_iff_not_both (e : ConfigEntry) :
    chartEntryWellTyped e = true ↔
      ¬ (e.color.isSome = true ∧ e.theme.isSome = true) := by
  cases e with
  | mk label icon color theme =>
    cases color <;> cases theme <;> simp [chartEntryWellTyped]

/-- C4 witness: a color-only entry is well typed. -/
theorem chartEntryWellTyped_iff_not_both_witness :
    chartEntryWellTyped { color := some "red" } = true :=
  (chartEntryWellTyped_iff_not_both { color := some "red" }).mpr (by decide)

/-- The truthiness filter of `ChartStyle` rejects an entry exactly when it
has no theme and its color is absent or the empty string. -/
theorem hasColorOrThemeJS_false_iff (e : ConfigEntry) :
    hasColorOrThemeJS e = false ↔
      (e.theme = none ∧ (e.color = none ∨ e.color = some "")) := by
  cases e with
  | mk label icon color theme =>
    cases color <;> cases theme <;>
      simp [hasColorOrThemeJS, jsTruthyStr]

/-- The line-color computation of `ChartStyle` agrees with the amended
description: theme-specific color when non-empty, else direct color, kept
only when non-empty. -/
theorem cssLineColor_eq_amendedVarColor (e : ConfigEntry) (t : String) :
    cssLineColor e t = amendedVarColor e t := by
  cases e with
  | mk label icon color theme =>
    cases theme with
    | none =>
      cases color with
      | none => rfl
      | some s =>
        by_cases hs : s = "" <;>
          simp [cssLineColor, amendedVarColor, jsOrStr, jsTruthyStr, hs]
    | some tc =>
      cases htc : themeColor tc t with
      | none =>
        cases color with
        | none => simp [cssLineColor, amendedVarColor, jsOrStr, jsTruthyStr, htc]
        | some s =>
          by_cases hs : s = "" <;>
            simp [cssLineColor, amendedVarColor, jsOrStr, jsTruthyStr, htc, hs]
      | some s =>
        by_cases hs : s = ""
        · cases color with
          | none => simp [cssLineColor, amendedVarColor, jsOrStr, jsTruthyStr, htc, hs]
          | some s2 =>
            by_cases hs2 : s2 = "" <;>
              simp [cssLineColor, amendedVarColor, jsOrStr, jsTruthyStr, htc, hs, hs2]
        · simp [cssLineColor, amendedVarColor, jsOrStr, jsTruthyStr, htc, hs]

/-- Every custom property emitted by `ChartStyle` comes from a config
entry that passed the truthiness filter, with its computed line color. -/
theorem chartStyleVars_mem (config : ChartConfig) (t k c : String)
    (h : (t, k, c) ∈ chartStyleVars config) :
    ∃ e, (k, e) ∈ config ∧ hasColorOrThemeJS e = true ∧ cssLineColor e t = some c := by
  simp only [chartStyleVars, List.mem_flatMap, List.mem_filterMap, Option.map_eq_some',
    colorConfigOf, List.mem_filter] at h
  obtain ⟨t2, ht2, ⟨kk, ee⟩, ⟨hin, hflt⟩, c2, hcl, heq⟩ := h
  simp only [Prod.mk.injEq] at heq
  obtain ⟨rfl, rfl, rfl⟩ := heq
  exact ⟨ee, hin, hflt, hcl⟩

/-- C10 counterexample: a config whose single entry has the empty string
as its color renders no style element, refuting the claimed equivalence
between emitting nothing and no entry having a color or theme set. -/
theorem chartStyle_empty_color_counterexample :
    ¬ (chartStyleIsNull cfgEmptyColor = true ↔
       ∀ p ∈ cfgEmptyColor, p.2.theme = none ∧ p.2.color = none) := by
  decide

/-- C10 amended: `ChartStyle` emits nothing exactly when no entry has a
theme or a non-empty color; every emitted custom property comes from an
entry passing that filter; entries lacking both fields contribute
nothing; and each line uses the theme-specific color when it is a
non-empty string, otherwise the direct color, kept only when non-empty. -/
theorem chartStyle_amended (config : ChartConfig) :
    (chartStyleIsNull config = true ↔
       ∀ p ∈ config, p.2.theme = none ∧ (p.2.color = none ∨ p.2.color = some "")) ∧
    (∀ t k c, (t, k, c) ∈ chartStyleVars config →
       ∃ e, (k, e) ∈ config ∧ hasColorOrThemeJS e = true ∧ cssLineColor e t = some c) ∧
    (∀ (e : ConfigEntry) (t : String), e.theme = none → e.color = none →
       cssLineColor e t = none) ∧
    (∀ (e : ConfigEntry) (t : String), cssLineColor e t = amendedVarColor e t) := by
  refine ⟨?_, chartStyleVars_mem config, ?_, cssLineColor_eq_amendedVarColor⟩
  · have hfilter : chartStyleIsNull config = true ↔
        ∀ p ∈ config, ¬ hasColorOrThemeJS p.2 = true := by
      simp [chartStyleIsNull, colorConfigOf, List.isEmpty_iff, List.filter_eq_nil_iff]
    rw [hfilter]
    constructor
    · intro h p hp
      exact (hasColorOrThemeJS_false_iff p.2).mp (by simpa using h p hp)
    · intro h p hp
      simpa using (hasColorOrThemeJS_false_iff p.2).mpr (h p hp)
  · intro e t h1 h2
    simp [cssLineColor, jsOrStr, jsTruthyStr, h1, h2]

/-- C10 witness: the empty config renders no style element, through the
amended equivalence. -/
theorem chartStyle_amended_witness :
    chartStyleIsNull ([] : ChartConfig) = true :=
  (chartStyle_amended []).1.mpr (by simp)

end ChartSpec
